import Mathlib

/-!
Verification of the Dhan risk-management engine (`dhan_risk_manager.py`).

The development shallowly embeds the risk decision engine
(`DhanRiskManager.check_and_manage_risk`) together with the action
executor operations it drives (`square_off_all_positions`,
`square_off_position`, `cancel_all_pending_orders`,
`trigger_kill_switch`).  Python floats are modelled as rationals (`ℚ`);
the engine's network collaborators (positions endpoint, order endpoint,
kill-switch endpoint) are modelled as explicit inputs describing the
response each call would receive.  Outgoing notifications (Telegram
messages) are modelled as an emitted event list.
-/

attribute [local semireducible] Rat.mul Rat.add Rat.sub Rat.inv

namespace Dhan

/-- One open position as reported by the `/positions` endpoint, reduced to
the fields the engine reads: trading symbol, signed net quantity
(`netQty`), the resolved average entry price (`none` when every
candidate key — `averagePrice`, `avgPrice`, ..., `buyAvg`, `costPrice` —
is missing or unparsable), and the position's total PNL
(`realizedProfit + unrealizedProfit`). -/
structure Position where
  symbol : String
  netQty : Int
  avgPrice : Option ℚ
  total : ℚ
deriving DecidableEq, Repr

/-- The configuration keys of `CONFIG` consulted by
`check_and_manage_risk`, after boolean normalisation by `_env_to_bool`
and float parsing. -/
structure Config where
  enableTrailing : Bool
  trailActivation : ℚ
  trailPercent : ℚ
  effectiveSendPnlUpdates : Bool
  sendOnlyAlerts : Bool
  enablePosTake : Bool
  posTakePercent : ℚ
  enablePosStoploss : Bool
  posStopPercent : ℚ
  enableKillSwitch : Bool
deriving DecidableEq, Repr

/-- The mutable per-session state of `DhanRiskManager`:
`self.daily_stoploss`, `self.daily_target` and
`self.kill_switch_triggered`. -/
structure RiskState where
  daily_stoploss : ℚ
  daily_target : ℚ
  kill_switch_triggered : Bool
deriving DecidableEq, Repr

/-- The string outcome pairs returned by `check_and_manage_risk`,
as a tagged variant carrying the detail string. -/
inductive Outcome where
  | KILL_SWITCH_ACTIVE (detail : String)
  | ERROR (detail : String)
  | STOPLOSS_BREACHED (detail : String)
  | TARGET_ACHIEVED (detail : String)
  | KILL_SWITCH_FAILED (detail : String)
  | WITHIN_LIMITS (detail : String)
deriving DecidableEq, Repr

/-- Action Executor invocations made by one `check_and_manage_risk`
call, in order. -/
inductive Action where
  | cancelAllPendingOrders
  | squareOffAllPositions (positions : List Position)
  | squareOffPosition (symbol : String)
  | killSwitchRequest
deriving DecidableEq, Repr

/-- Reason tag attached to a per-position exit
(`'TAKE_PROFIT'` / `'POSITION_STOPLOSS'` in the source). -/
inductive ExitReason where
  | TAKE_PROFIT
  | POSITION_STOPLOSS
deriving DecidableEq, Repr

/-- Notifications the engine emits during one call (sent via Telegram
when a notifier is configured). -/
inductive Event where
  | trailingUpdate (newStoploss pnl : ℚ)
  | pnlUpdate
  | perPositionExit (symbol : String) (reason : ExitReason)
  | breachAlert (reason : String) (pnl limitValue : ℚ) (killSwitchEnabled : Bool)
  | ksConfirmation (reason : String)
  | errorAlert (msg : String)
deriving DecidableEq, Repr

/-- Response of the broker's `/killSwitch` endpoint for one request, as
observed by `trigger_kill_switch`: an HTTP 200 carrying the
`killSwitchStatus` string, a non-200 response with its body text, a
timeout, or any other raised exception. -/
inductive KSResponse where
  | ok (killSwitchStatus : String)
  | httpFailure (text : String)
  | timeout
  | exn (msg : String)
deriving DecidableEq, Repr

/-- ASCII lowering of a string, modelling Python's `str.lower()` on the
ASCII status strings at play. -/
def lowerStr (s : String) : String := String.mk (s.data.map Char.toLower)

/-- Does the second character list appear at the head of the first
argument list? -/
def charsStartWith : List Char → List Char → Bool
  | [], _ => true
  | _ :: _, [] => false
  | a :: as, b :: bs => a == b && charsStartWith as bs

/-- Does `needle` occur as a contiguous sublist? -/
def charsContain (needle : List Char) : List Char → Bool
  | [] => charsStartWith needle []
  | c :: cs => charsStartWith needle (c :: cs) || charsContain needle cs

/-- Python's substring operator `needle in hay`. -/
def strContains (hay needle : String) : Bool := charsContain needle.data hay.data

/-- Case-insensitive substring check, the reading the spec prescribes
for interpreting the kill-switch status. -/
def containsCaseInsensitive (hay needle : String) : Bool :=
  strContains (lowerStr hay) (lowerStr needle)

/-- `DhanRiskManager.trigger_kill_switch`: posts the activation request
and interprets the response.  On HTTP 200 it succeeds iff
`"activated" in str.lower(kill_switch_status)`, setting
`self.kill_switch_triggered` on success only; every failure mode
returns `[False, detail]` without raising and without touching state.
Returns the `(success, status)` pair together with the state after the
call. -/
def trigger_kill_switch (s : RiskState) (resp : KSResponse) : (Bool × String) × RiskState :=
  match resp with
  | .ok status =>
      if strContains (lowerStr status) "activated" then
        ((true, status), { s with kill_switch_triggered := true })
      else
        ((false, status), s)
  | .httpFailure text => ((false, text), s)
  | .timeout => ((false, "Request timed out"), s)
  | .exn msg => ((false, msg), s)

/-- Total day PNL of a snapshot: the sum of the per-position totals, as
computed by `get_positions_pnl` (an empty response yields `(0, [])`). -/
def pnlOf (position_details : List Position) : ℚ :=
  (position_details.map Position.total).sum

/-- The trailing-stoploss block of `check_and_manage_risk` (state
part): when trailing is enabled and `pnl > 0`, with a positive
activation profit and trail percent and `pnl >= activation_profit`, the
candidate `pnl * (1 - trail_percent / 100)` replaces
`self.daily_stoploss` only when strictly greater. -/
def trailingState (cfg : Config) (s : RiskState) (pnl : ℚ) : RiskState :=
  if cfg.enableTrailing = true ∧ 0 < pnl then
    if 0 < cfg.trailActivation ∧ 0 < cfg.trailPercent ∧ cfg.trailActivation ≤ pnl then
      if s.daily_stoploss < pnl * (1 - cfg.trailPercent / 100) then
        { s with daily_stoploss := pnl * (1 - cfg.trailPercent / 100) }
      else s
    else s
  else s

/-- The trailing-stoploss block of `check_and_manage_risk` (emitted
notification part). -/
def trailingEvents (cfg : Config) (s : RiskState) (pnl : ℚ) : List Event :=
  if cfg.enableTrailing = true ∧ 0 < pnl then
    if 0 < cfg.trailActivation ∧ 0 < cfg.trailPercent ∧ cfg.trailActivation ≤ pnl then
      if s.daily_stoploss < pnl * (1 - cfg.trailPercent / 100) then
        [Event.trailingUpdate (pnl * (1 - cfg.trailPercent / 100)) pnl]
      else []
    else []
  else []

/-- The per-check PNL notification: sent when the effective send flag
is on and `SEND_ONLY_ALERTS` is off. -/
def pnlUpdateEvents (cfg : Config) : List Event :=
  if cfg.effectiveSendPnlUpdates = true ∧ cfg.sendOnlyAlerts = false then
    [Event.pnlUpdate]
  else []

/-- The per-position loop body: the exit marks `(pos, percent, reason)`
one position contributes to `positions_to_square`.  Mirrors the source:
zero net quantity, unresolvable or zero average price, and zero
invested value are skipped; `percent = total / (|netQty| * avg) * 100`;
a take-profit mark when `percent >= threshold` and, when the
per-position stoploss is enabled with a positive threshold, a stoploss
mark when `percent <= -abs(threshold)`. -/
def marksFor (cfg : Config) (p : Position) : List (Position × ℚ × ExitReason) :=
  if p.netQty = 0 then []
  else
    match p.avgPrice with
    | none => []
    | some avg =>
      if avg = 0 then []
      else
        if (p.netQty.natAbs : ℚ) * avg = 0 then []
        else
          (if cfg.posTakePercent ≤ p.total / ((p.netQty.natAbs : ℚ) * avg) * 100 then
            [(p, p.total / ((p.netQty.natAbs : ℚ) * avg) * 100, ExitReason.TAKE_PROFIT)]
          else []) ++
          (if cfg.enablePosStoploss = true ∧ 0 < cfg.posStopPercent ∧
              p.total / ((p.netQty.natAbs : ℚ) * avg) * 100 ≤ -|cfg.posStopPercent| then
            [(p, p.total / ((p.netQty.natAbs : ℚ) * avg) * 100, ExitReason.POSITION_STOPLOSS)]
          else [])

/-- `positions_to_square` accumulated over the whole snapshot, in
iteration order. -/
def markedExits (cfg : Config) (position_details : List Position) :
    List (Position × ℚ × ExitReason) :=
  position_details.foldr (fun p acc => marksFor cfg p ++ acc) []

/-- The per-position percent block of `check_and_manage_risk`: it runs
only when `ENABLE_POSITION_PERCENT_TAKE` is on with a positive
`POSITION_PERCENT_TAKE`, and then squares off each marked position via
`square_off_position` and notifies each exit. -/
def perPositionBlock (cfg : Config) (position_details : List Position) :
    List Action × List Event :=
  if cfg.enablePosTake = true ∧ 0 < cfg.posTakePercent then
    ((markedExits cfg position_details).map (fun m => Action.squareOffPosition m.1.symbol),
     (markedExits cfg position_details).map (fun m => Event.perPositionExit m.1.symbol m.2.2))
  else ([], [])

/-- Result of one `check_and_manage_risk` call: the returned outcome
pair, the state after the call, the Action Executor calls made, and the
notifications emitted. -/
structure EvalResult where
  outcome : Outcome
  state : RiskState
  actions : List Action
  events : List Event
deriving DecidableEq, Repr

/-- The account-level breach check at the end of `check_and_manage_risk`
(`if pnl <= self.daily_stoploss: ... elif pnl >= self.daily_target: ...
else: ...`), evaluated against the possibly trailing-updated state
`s1`.  `preA`/`preE` are the actions and events already produced by the
earlier steps of the same call. -/
def accountCheck (cfg : Config) (s1 : RiskState) (position_details : List Position)
    (pnl : ℚ) (ksResp : KSResponse) (preA : List Action) (preE : List Event) : EvalResult :=
  if pnl ≤ s1.daily_stoploss then
    if cfg.enableKillSwitch = true then
      if (trigger_kill_switch s1 ksResp).1.1 = true then
        ⟨Outcome.STOPLOSS_BREACHED (trigger_kill_switch s1 ksResp).1.2,
         (trigger_kill_switch s1 ksResp).2,
         preA ++ [Action.cancelAllPendingOrders,
                  Action.squareOffAllPositions position_details,
                  Action.killSwitchRequest],
         preE ++ [Event.breachAlert "STOPLOSS" pnl s1.daily_stoploss cfg.enableKillSwitch,
                  Event.ksConfirmation "STOPLOSS"]⟩
      else
        ⟨Outcome.KILL_SWITCH_FAILED (trigger_kill_switch s1 ksResp).1.2,
         (trigger_kill_switch s1 ksResp).2,
         preA ++ [Action.cancelAllPendingOrders,
                  Action.squareOffAllPositions position_details,
                  Action.killSwitchRequest],
         preE ++ [Event.breachAlert "STOPLOSS" pnl s1.daily_stoploss cfg.enableKillSwitch]⟩
    else
      ⟨Outcome.STOPLOSS_BREACHED "Kill switch not enabled",
       { s1 with kill_switch_triggered := true },
       preA ++ [Action.cancelAllPendingOrders,
                Action.squareOffAllPositions position_details],
       preE ++ [Event.breachAlert "STOPLOSS" pnl s1.daily_stoploss cfg.enableKillSwitch]⟩
  else if s1.daily_target ≤ pnl then
    if cfg.enableKillSwitch = true then
      if (trigger_kill_switch s1 ksResp).1.1 = true then
        ⟨Outcome.TARGET_ACHIEVED (trigger_kill_switch s1 ksResp).1.2,
         (trigger_kill_switch s1 ksResp).2,
         preA ++ [Action.killSwitchRequest],
         preE ++ [Event.breachAlert "TARGET" pnl s1.daily_target cfg.enableKillSwitch,
                  Event.ksConfirmation "TARGET"]⟩
      else
        ⟨Outcome.KILL_SWITCH_FAILED (trigger_kill_switch s1 ksResp).1.2,
         (trigger_kill_switch s1 ksResp).2,
         preA ++ [Action.killSwitchRequest],
         preE ++ [Event.breachAlert "TARGET" pnl s1.daily_target cfg.enableKillSwitch]⟩
    else
      ⟨Outcome.TARGET_ACHIEVED "Kill switch not enabled",
       { s1 with kill_switch_triggered := true },
       preA,
       preE ++ [Event.breachAlert "TARGET" pnl s1.daily_target cfg.enableKillSwitch]⟩
  else
    ⟨Outcome.WITHIN_LIMITS "Success", s1, preA, preE⟩

/-- Body of `check_and_manage_risk` on a successful snapshot fetch:
trailing ratchet, per-check PNL notification, per-position percent
checks, then the account-level breach check against the updated
stoploss. -/
def riskCheckBody (cfg : Config) (s : RiskState) (position_details : List Position)
    (ksResp : KSResponse) : EvalResult :=
  accountCheck cfg (trailingState cfg s (pnlOf position_details)) position_details
    (pnlOf position_details) ksResp
    (perPositionBlock cfg position_details).1
    (trailingEvents cfg s (pnlOf position_details) ++ pnlUpdateEvents cfg ++
      (perPositionBlock cfg position_details).2)

/-- `DhanRiskManager.check_and_manage_risk`.  `fetch` is what
`get_positions_pnl` observes: `none` models every failure mode (non-200
status, authentication failure, timeout, network exception — all of
which return `(None, None)`), `some ps` a successful fetch of the
position list. -/
def check_and_manage_risk (cfg : Config) (s : RiskState)
    (fetch : Option (List Position)) (ksResp : KSResponse) : EvalResult :=
  if s.kill_switch_triggered = true then
    ⟨Outcome.KILL_SWITCH_ACTIVE "Success", s, [], []⟩
  else
    match fetch with
    | none =>
        ⟨Outcome.ERROR "Failed to fetch PNL", s, [],
         [Event.errorAlert "Failed to fetch PNL data from Dhan API"]⟩
    | some position_details => riskCheckBody cfg s position_details ksResp

/-- A whole session: fold `check_and_manage_risk` over a list of
per-cycle inputs (snapshot fetch result and kill-switch response),
threading the engine state. -/
def runSession (cfg : Config) : RiskState → List (Option (List Position) × KSResponse) → RiskState
  | s, [] => s
  | s, (f, k) :: rest => runSession cfg (check_and_manage_risk cfg s f k).state rest

/-- Broker response to one closing market order placed by
`square_off_all_positions` / `square_off_position`: HTTP 200 with an
order id, a non-200 response, or a raised exception. -/
inductive OrderResult where
  | placed (orderId : String)
  | httpFailure (text : String)
  | exn (msg : String)
deriving DecidableEq, Repr

/-- Tally of one `square_off_all_positions` run: the symbols whose
closing order was placed, `squared_off_count` and `failed_count`. -/
structure SquareOffTally where
  placedSymbols : List String
  squared_off_count : Nat
  failed_count : Nat
deriving DecidableEq, Repr

/-- The loop of `square_off_all_positions`: positions with zero net
quantity are skipped; otherwise the closing order outcome (given by
`env`) either counts as squared off or as failed — an HTTP failure and
a raised exception both increment `failed_count` and the loop
continues with the next position. -/
def squareOffLoop (env : Position → OrderResult) : List Position → SquareOffTally
  | [] => ⟨[], 0, 0⟩
  | p :: rest =>
    let tail := squareOffLoop env rest
    if p.netQty = 0 then tail
    else
      match env p with
      | .placed _ =>
          ⟨p.symbol :: tail.placedSymbols, tail.squared_off_count + 1, tail.failed_count⟩
      | .httpFailure _ =>
          ⟨tail.placedSymbols, tail.squared_off_count, tail.failed_count + 1⟩
      | .exn _ =>
          ⟨tail.placedSymbols, tail.squared_off_count, tail.failed_count + 1⟩

/-- `DhanRiskManager.square_off_all_positions`: runs the loop and
returns `failed_count == 0` (an empty position list returns `True`
immediately, which coincides with the empty tally). -/
def square_off_all_positions (env : Position → OrderResult) (position_details : List Position) :
    SquareOffTally × Bool :=
  (squareOffLoop env position_details,
   decide ((squareOffLoop env position_details).failed_count = 0))

end Dhan

namespace Dhan

/-! ### Helper lemmas about the embedded operations -/

theorem trigger_state_cases (s : RiskState) (r : KSResponse) :
    (trigger_kill_switch s r).2 =
      (if (trigger_kill_switch s r).1.1 = true then
        { s with kill_switch_triggered := true }
      else s) := by
  cases r with
  | ok status =>
      by_cases h : strContains (lowerStr status) "activated" = true <;>
        simp [trigger_kill_switch, h]
  | httpFailure t => simp [trigger_kill_switch]
  | timeout => simp [trigger_kill_switch]
  | exn m => simp [trigger_kill_switch]

theorem trigger_stoploss_eq (s : RiskState) (r : KSResponse) :
    (trigger_kill_switch s r).2.daily_stoploss = s.daily_stoploss := by
  rw [trigger_state_cases]; split <;> rfl

theorem trigger_target_eq (s : RiskState) (r : KSResponse) :
    (trigger_kill_switch s r).2.daily_target = s.daily_target := by
  rw [trigger_state_cases]; split <;> rfl

theorem trigger_flag_eq (s : RiskState) (r : KSResponse) :
    (trigger_kill_switch s r).2.kill_switch_triggered =
      (s.kill_switch_triggered || (trigger_kill_switch s r).1.1) := by
  rw [trigger_state_cases]
  by_cases h : (trigger_kill_switch s r).1.1 = true <;> simp [h]

theorem trailingState_stoploss_le (cfg : Config) (s : RiskState) (pnl : ℚ) :
    s.daily_stoploss ≤ (trailingState cfg s pnl).daily_stoploss := by
  unfold trailingState
  split_ifs with h1 h2 h3
  · exact le_of_lt h3
  all_goals exact le_refl _

theorem trailingState_target (cfg : Config) (s : RiskState) (pnl : ℚ) :
    (trailingState cfg s pnl).daily_target = s.daily_target := by
  unfold trailingState; split_ifs <;> rfl

theorem trailingState_flag (cfg : Config) (s : RiskState) (pnl : ℚ) :
    (trailingState cfg s pnl).kill_switch_triggered = s.kill_switch_triggered := by
  unfold trailingState; split_ifs <;> rfl

theorem trailingState_raise_lt_pnl (cfg : Config) (s : RiskState) (pnl : ℚ)
    (h : s.daily_stoploss < (trailingState cfg s pnl).daily_stoploss) :
    (trailingState cfg s pnl).daily_stoploss < pnl := by
  unfold trailingState at h ⊢
  split_ifs at h ⊢ with h1 h2 h3
  · obtain ⟨-, hpnl⟩ := h1
    obtain ⟨-, ht, -⟩ := h2
    show pnl * (1 - cfg.trailPercent / 100) < pnl
    nlinarith [mul_pos hpnl ht]
  all_goals exact absurd h (lt_irrefl _)

theorem accountCheck_state_stoploss (cfg : Config) (s1 : RiskState)
    (ps : List Position) (pnl : ℚ) (k : KSResponse) (preA : List Action) (preE : List Event) :
    (accountCheck cfg s1 ps pnl k preA preE).state.daily_stoploss = s1.daily_stoploss := by
  unfold accountCheck
  split_ifs <;> simp [trigger_stoploss_eq]

theorem accountCheck_actions_eq (cfg : Config) (s1 : RiskState)
    (ps : List Position) (pnl : ℚ) (k : KSResponse) (preA : List Action) (preE : List Event) :
    ∃ rest, (accountCheck cfg s1 ps pnl k preA preE).actions = preA ++ rest := by
  unfold accountCheck
  split_ifs <;> first
    | exact ⟨_, rfl⟩
    | exact ⟨[], by simp⟩

theorem perPositionBlock_shape (cfg : Config) (ps : List Position) (a : Action)
    (ha : a ∈ (perPositionBlock cfg ps).1) : ∃ sym, a = Action.squareOffPosition sym := by
  unfold perPositionBlock at ha
  split_ifs at ha
  · obtain ⟨m, -, rfl⟩ := List.mem_map.mp ha
    exact ⟨_, rfl⟩
  · simp at ha

theorem check_stoploss_le (cfg : Config) (s : RiskState) (f : Option (List Position))
    (k : KSResponse) :
    s.daily_stoploss ≤ (check_and_manage_risk cfg s f k).state.daily_stoploss := by
  unfold check_and_manage_risk
  by_cases h : s.kill_switch_triggered = true
  · simp [h]
  · simp only [h, if_false]
    cases f with
    | none => exact le_refl _
    | some ps =>
        show s.daily_stoploss ≤ (riskCheckBody cfg s ps k).state.daily_stoploss
        unfold riskCheckBody
        rw [accountCheck_state_stoploss]
        exact trailingState_stoploss_le cfg s (pnlOf ps)

theorem runSession_stoploss_le (cfg : Config) (s : RiskState)
    (inputs : List (Option (List Position) × KSResponse)) :
    s.daily_stoploss ≤ (runSession cfg s inputs).daily_stoploss := by
  induction inputs generalizing s with
  | nil => exact le_refl _
  | cons ik rest ih =>
      obtain ⟨f, k⟩ := ik
      exact le_trans (check_stoploss_le cfg s f k) (ih _)

theorem check_terminal (cfg : Config) (s : RiskState) (f : Option (List Position))
    (k : KSResponse) (h : s.kill_switch_triggered = true) :
    check_and_manage_risk cfg s f k =
      ⟨Outcome.KILL_SWITCH_ACTIVE "Success", s, [], []⟩ := by
  unfold check_and_manage_risk
  simp [h]

end Dhan

namespace Dhan

theorem accountCheck_sl_branch (cfg : Config) (s1 : RiskState)
    (ps : List Position) (pnl : ℚ) (k : KSResponse) (preA : List Action) (preE : List Event)
    (h : pnl ≤ s1.daily_stoploss) :
    accountCheck cfg s1 ps pnl k preA preE =
      (if cfg.enableKillSwitch = true then
        (if (trigger_kill_switch s1 k).1.1 = true then
          ⟨Outcome.STOPLOSS_BREACHED (trigger_kill_switch s1 k).1.2,
           (trigger_kill_switch s1 k).2,
           preA ++ [Action.cancelAllPendingOrders,
                    Action.squareOffAllPositions ps,
                    Action.killSwitchRequest],
           preE ++ [Event.breachAlert "STOPLOSS" pnl s1.daily_stoploss cfg.enableKillSwitch,
                    Event.ksConfirmation "STOPLOSS"]⟩
        else
          ⟨Outcome.KILL_SWITCH_FAILED (trigger_kill_switch s1 k).1.2,
           (trigger_kill_switch s1 k).2,
           preA ++ [Action.cancelAllPendingOrders,
                    Action.squareOffAllPositions ps,
                    Action.killSwitchRequest],
           preE ++ [Event.breachAlert "STOPLOSS" pnl s1.daily_stoploss cfg.enableKillSwitch]⟩)
      else
        ⟨Outcome.STOPLOSS_BREACHED "Kill switch not enabled",
         { s1 with kill_switch_triggered := true },
         preA ++ [Action.cancelAllPendingOrders,
                  Action.squareOffAllPositions ps],
         preE ++ [Event.breachAlert "STOPLOSS" pnl s1.daily_stoploss cfg.enableKillSwitch]⟩) := by
  unfold accountCheck
  rw [if_pos h]

theorem accountCheck_target_branch (cfg : Config) (s1 : RiskState)
    (ps : List Position) (pnl : ℚ) (k : KSResponse) (preA : List Action) (preE : List Event)
    (hns : ¬ pnl ≤ s1.daily_stoploss) (htg : s1.daily_target ≤ pnl) :
    accountCheck cfg s1 ps pnl k preA preE =
      (if cfg.enableKillSwitch = true then
        (if (trigger_kill_switch s1 k).1.1 = true then
          ⟨Outcome.TARGET_ACHIEVED (trigger_kill_switch s1 k).1.2,
           (trigger_kill_switch s1 k).2,
           preA ++ [Action.killSwitchRequest],
           preE ++ [Event.breachAlert "TARGET" pnl s1.daily_target cfg.enableKillSwitch,
                    Event.ksConfirmation "TARGET"]⟩
        else
          ⟨Outcome.KILL_SWITCH_FAILED (trigger_kill_switch s1 k).1.2,
           (trigger_kill_switch s1 k).2,
           preA ++ [Action.killSwitchRequest],
           preE ++ [Event.breachAlert "TARGET" pnl s1.daily_target cfg.enableKillSwitch]⟩)
      else
        ⟨Outcome.TARGET_ACHIEVED "Kill switch not enabled",
         { s1 with kill_switch_triggered := true },
         preA,
         preE ++ [Event.breachAlert "TARGET" pnl s1.daily_target cfg.enableKillSwitch]⟩) := by
  unfold accountCheck
  rw [if_neg hns, if_pos htg]

theorem accountCheck_within_branch (cfg : Config) (s1 : RiskState)
    (ps : List Position) (pnl : ℚ) (k : KSResponse) (preA : List Action) (preE : List Event)
    (hns : ¬ pnl ≤ s1.daily_stoploss) (hnt : ¬ s1.daily_target ≤ pnl) :
    accountCheck cfg s1 ps pnl k preA preE =
      ⟨Outcome.WITHIN_LIMITS "Success", s1, preA, preE⟩ := by
  unfold accountCheck
  rw [if_neg hns, if_neg hnt]

theorem check_body_eq (cfg : Config) (s : RiskState) (ps : List Position) (k : KSResponse)
    (h : s.kill_switch_triggered = false) :
    check_and_manage_risk cfg s (some ps) k =
      accountCheck cfg (trailingState cfg s (pnlOf ps)) ps (pnlOf ps) k
        (perPositionBlock cfg ps).1
        (trailingEvents cfg s (pnlOf ps) ++ pnlUpdateEvents cfg ++
          (perPositionBlock cfg ps).2) := by
  unfold check_and_manage_risk
  simp [h, riskCheckBody]

end Dhan

namespace Dhan

/-! ### Concrete configurations and snapshots used by the witnesses -/

/-- A configuration with every optional feature off and the kill switch
disabled. -/
def cfgAllOff : Config := ⟨false, 0, 0, false, false, false, 0, false, 0, false⟩

/-- Trailing stoploss enabled: activation profit 1000, trail 10%. -/
def cfgTrailOn : Config := ⟨true, 1000, 10, false, false, false, 0, false, 0, false⟩

/-- Both per-position features enabled: take-profit 5%, stoploss 2%. -/
def cfgPosBoth : Config := ⟨false, 0, 0, false, false, true, 5, true, 2, false⟩

/-- Per-position stoploss enabled (2%) while the per-position
take-profit feature is disabled. -/
def cfgPosSLOnly : Config := ⟨false, 0, 0, false, false, false, 0, true, 2, false⟩

/-- A single losing position with total day PNL -1100. -/
def snapLoss : List Position := [⟨"NIFTY", 75, some 100, -1100⟩]

/-! ### Claim theorems -/

/-- C1: over every single `check_and_manage_risk` call and over every
sequence of calls within one session, `daily_stoploss` after the call
is ≥ its value before the call — the trailing ratchet is the only
mutation and it only raises the level. -/
theorem stoploss_level_monotone (cfg : Config) (s : RiskState) (f : Option (List Position))
    (k : KSResponse) (inputs : List (Option (List Position) × KSResponse)) :
    s.daily_stoploss ≤ (check_and_manage_risk cfg s f k).state.daily_stoploss ∧
    s.daily_stoploss ≤ (runSession cfg s inputs).daily_stoploss :=
  ⟨check_stoploss_le cfg s f k, runSession_stoploss_le cfg s inputs⟩

/-- C2: once `kill_switch_triggered` is true, every further
`check_and_manage_risk` call returns `KILL_SWITCH_ACTIVE` immediately,
performs no Action Executor call, emits nothing and leaves the state
exactly unchanged — in particular the flag never reverts to false — and
the same holds over any whole remaining session. -/
theorem kill_switch_terminal_idempotent (cfg : Config) (s : RiskState)
    (f : Option (List Position)) (k : KSResponse)
    (inputs : List (Option (List Position) × KSResponse))
    (h : s.kill_switch_triggered = true) :
    check_and_manage_risk cfg s f k =
      ⟨Outcome.KILL_SWITCH_ACTIVE "Success", s, [], []⟩ ∧
    runSession cfg s inputs = s := by
  refine ⟨check_terminal cfg s f k h, ?_⟩
  induction inputs with
  | nil => rfl
  | cons ik rest ih =>
      obtain ⟨f', k'⟩ := ik
      show runSession cfg (check_and_manage_risk cfg s f' k').state rest = s
      rw [check_terminal cfg s f' k' h]
      exact ih

/-- C2 witness: a state with the flag already set is returned verbatim
with outcome `KILL_SWITCH_ACTIVE` and no actions. -/
theorem kill_switch_terminal_idempotent_witness :
    check_and_manage_risk cfgAllOff ⟨-1000, 2000, true⟩ (some snapLoss) KSResponse.timeout =
      ⟨Outcome.KILL_SWITCH_ACTIVE "Success", ⟨-1000, 2000, true⟩, [], []⟩ ∧
    runSession cfgAllOff ⟨-1000, 2000, true⟩
      [(some snapLoss, KSResponse.timeout), (none, KSResponse.timeout)] =
      ⟨-1000, 2000, true⟩ :=
  kill_switch_terminal_idempotent cfgAllOff ⟨-1000, 2000, true⟩ (some snapLoss)
    KSResponse.timeout [(some snapLoss, KSResponse.timeout), (none, KSResponse.timeout)] rfl

/-- C7: when the snapshot fetch fails, `check_and_manage_risk` returns
the `ERROR` outcome, makes no Action Executor call, emits only the
error notification, and leaves the whole engine state unchanged. -/
theorem data_unavailable_safe (cfg : Config) (s : RiskState) (k : KSResponse)
    (h : s.kill_switch_triggered = false) :
    check_and_manage_risk cfg s none k =
      ⟨Outcome.ERROR "Failed to fetch PNL", s, [],
       [Event.errorAlert "Failed to fetch PNL data from Dhan API"]⟩ := by
  unfold check_and_manage_risk
  simp [h]

/-- C7 witness: a failed fetch on a fresh state. -/
theorem data_unavailable_safe_witness :
    check_and_manage_risk cfgAllOff ⟨-1000, 2000, false⟩ none KSResponse.timeout =
      ⟨Outcome.ERROR "Failed to fetch PNL", ⟨-1000, 2000, false⟩, [],
       [Event.errorAlert "Failed to fetch PNL data from Dhan API"]⟩ :=
  data_unavailable_safe cfgAllOff ⟨-1000, 2000, false⟩ KSResponse.timeout rfl

end Dhan

namespace Dhan

/-- C9: `trigger_kill_switch` reports success iff the broker status
string contains `"activated"` case-insensitively (substring check, not
equality), returns the `(success, status)` pair, converts HTTP failure,
timeout and exception to failure results without raising, and sets
`kill_switch_triggered` exactly on the success outcome. -/
theorem trigger_kill_switch_contract (s : RiskState) (status text msg : String) :
    ((trigger_kill_switch s (KSResponse.ok status)).1.1 = true ↔
       containsCaseInsensitive status "activated" = true) ∧
    (trigger_kill_switch s (KSResponse.ok status)).1.2 = status ∧
    (trigger_kill_switch s (KSResponse.ok status)).2 =
      (if (trigger_kill_switch s (KSResponse.ok status)).1.1 = true then
        { s with kill_switch_triggered := true }
      else s) ∧
    trigger_kill_switch s (KSResponse.httpFailure text) = ((false, text), s) ∧
    trigger_kill_switch s KSResponse.timeout = ((false, "Request timed out"), s) ∧
    trigger_kill_switch s (KSResponse.exn msg) = ((false, msg), s) ∧
    (trigger_kill_switch s (KSResponse.ok status)).2.kill_switch_triggered =
      (s.kill_switch_triggered || (trigger_kill_switch s (KSResponse.ok status)).1.1) := by
  have hact : lowerStr "activated" = "activated" := by decide
  refine ⟨?_, ?_, trigger_state_cases s (KSResponse.ok status), rfl, rfl, rfl,
    trigger_flag_eq s (KSResponse.ok status)⟩
  · by_cases h : strContains (lowerStr status) "activated" = true <;>
      simp [trigger_kill_switch, containsCaseInsensitive, hact, h]
  · by_cases h : strContains (lowerStr status) "activated" = true <;>
      simp [trigger_kill_switch, h]

/-- C9 witness: a status differing from `"activated"` in casing and with
surrounding text still succeeds (substring, case-insensitive), a
rejection fails, and an HTTP failure is a failure result. -/
theorem trigger_kill_switch_contract_witness :
    (trigger_kill_switch ⟨-1000, 2000, false⟩
        (KSResponse.ok "Kill Switch ACTIVATED for today")).1.1 = true ∧
    (trigger_kill_switch ⟨-1000, 2000, false⟩
        (KSResponse.ok "Kill Switch ACTIVATED for today")).2.kill_switch_triggered = true ∧
    (trigger_kill_switch ⟨-1000, 2000, false⟩ (KSResponse.ok "rejected")).1.1 = false ∧
    trigger_kill_switch ⟨-1000, 2000, false⟩ (KSResponse.httpFailure "502") =
      ((false, "502"), ⟨-1000, 2000, false⟩) := by
  refine ⟨((trigger_kill_switch_contract ⟨-1000, 2000, false⟩
      "Kill Switch ACTIVATED for today" "502" "e").1).mpr (by decide), by decide, by decide,
    (trigger_kill_switch_contract ⟨-1000, 2000, false⟩ "x" "502" "e").2.2.2.1⟩

/-- C5: whenever the (possibly trailing-updated) stoploss is breached
with kill-switch activation disabled, the engine cancels all pending
orders and flattens all positions exactly once each, makes no
kill-switch broker call, sets `kill_switch_triggered` locally, and
returns `STOPLOSS_BREACHED` with detail `"Kill switch not enabled"`. -/
theorem stoploss_breach_kill_switch_disabled (cfg : Config) (s : RiskState)
    (ps : List Position) (k : KSResponse)
    (hflag : s.kill_switch_triggered = false)
    (hks : cfg.enableKillSwitch = false)
    (hbr : pnlOf ps ≤ (trailingState cfg s (pnlOf ps)).daily_stoploss) :
    (check_and_manage_risk cfg s (some ps) k).outcome =
      Outcome.STOPLOSS_BREACHED "Kill switch not enabled" ∧
    (check_and_manage_risk cfg s (some ps) k).state.kill_switch_triggered = true ∧
    (check_and_manage_risk cfg s (some ps) k).actions.count
      Action.cancelAllPendingOrders = 1 ∧
    (check_and_manage_risk cfg s (some ps) k).actions.count
      (Action.squareOffAllPositions ps) = 1 ∧
    Action.killSwitchRequest ∉ (check_and_manage_risk cfg s (some ps) k).actions := by
  have hres : check_and_manage_risk cfg s (some ps) k =
      ⟨Outcome.STOPLOSS_BREACHED "Kill switch not enabled",
       { trailingState cfg s (pnlOf ps) with kill_switch_triggered := true },
       (perPositionBlock cfg ps).1 ++ [Action.cancelAllPendingOrders,
         Action.squareOffAllPositions ps],
       (trailingEvents cfg s (pnlOf ps) ++ pnlUpdateEvents cfg ++
         (perPositionBlock cfg ps).2) ++
         [Event.breachAlert "STOPLOSS" (pnlOf ps)
           (trailingState cfg s (pnlOf ps)).daily_stoploss cfg.enableKillSwitch]⟩ := by
    rw [check_body_eq cfg s ps k hflag, accountCheck_sl_branch _ _ _ _ _ _ _ hbr]
    rw [if_neg]
    simp [hks]
  have hnc : Action.cancelAllPendingOrders ∉ (perPositionBlock cfg ps).1 := by
    intro hmem
    obtain ⟨sym, hs⟩ := perPositionBlock_shape cfg ps _ hmem
    exact Action.noConfusion hs
  have hnq : Action.squareOffAllPositions ps ∉ (perPositionBlock cfg ps).1 := by
    intro hmem
    obtain ⟨sym, hs⟩ := perPositionBlock_shape cfg ps _ hmem
    exact Action.noConfusion hs
  have hnk : Action.killSwitchRequest ∉ (perPositionBlock cfg ps).1 := by
    intro hmem
    obtain ⟨sym, hs⟩ := perPositionBlock_shape cfg ps _ hmem
    exact Action.noConfusion hs
  rw [hres]
  refine ⟨rfl, rfl, ?_, ?_, ?_⟩
  · rw [List.count_append, List.count_eq_zero.mpr hnc]
    simp
  · rw [List.count_append, List.count_eq_zero.mpr hnq]
    simp
  · intro hmem
    rcases List.mem_append.mp hmem with hmem | hmem
    · exact hnk hmem
    · simp at hmem

/-- C5 witness: the spec scenario stoploss -1000, target 2000,
kill-switch disabled, PNL -1100. -/
theorem stoploss_breach_kill_switch_disabled_witness :
    (check_and_manage_risk cfgAllOff ⟨-1000, 2000, false⟩ (some snapLoss)
        KSResponse.timeout).outcome =
      Outcome.STOPLOSS_BREACHED "Kill switch not enabled" ∧
    (check_and_manage_risk cfgAllOff ⟨-1000, 2000, false⟩ (some snapLoss)
        KSResponse.timeout).state.kill_switch_triggered = true ∧
    (check_and_manage_risk cfgAllOff ⟨-1000, 2000, false⟩ (some snapLoss)
        KSResponse.timeout).actions.count Action.cancelAllPendingOrders = 1 ∧
    (check_and_manage_risk cfgAllOff ⟨-1000, 2000, false⟩ (some snapLoss)
        KSResponse.timeout).actions.count (Action.squareOffAllPositions snapLoss) = 1 ∧
    Action.killSwitchRequest ∉
      (check_and_manage_risk cfgAllOff ⟨-1000, 2000, false⟩ (some snapLoss)
        KSResponse.timeout).actions :=
  stoploss_breach_kill_switch_disabled cfgAllOff ⟨-1000, 2000, false⟩ snapLoss
    KSResponse.timeout rfl rfl (by decide)

end Dhan

namespace Dhan

/-- C6: when PNL simultaneously breaches the stoploss and reaches the
target (misconfigured limits), the stoploss branch wins: the outcome is
`STOPLOSS_BREACHED` (or `KILL_SWITCH_FAILED` from the stoploss path)
and never `TARGET_ACHIEVED`, because the stoploss check runs first. -/
theorem stoploss_precedence (cfg : Config) (s : RiskState) (ps : List Position)
    (k : KSResponse)
    (hflag : s.kill_switch_triggered = false)
    (hsl : pnlOf ps ≤ (trailingState cfg s (pnlOf ps)).daily_stoploss)
    (htg : (trailingState cfg s (pnlOf ps)).daily_target ≤ pnlOf ps) :
    (∃ d, (check_and_manage_risk cfg s (some ps) k).outcome =
            Outcome.STOPLOSS_BREACHED d ∨
          (check_and_manage_risk cfg s (some ps) k).outcome =
            Outcome.KILL_SWITCH_FAILED d) ∧
    ∀ d, (check_and_manage_risk cfg s (some ps) k).outcome ≠
          Outcome.TARGET_ACHIEVED d := by
  rw [check_body_eq cfg s ps k hflag, accountCheck_sl_branch _ _ _ _ _ _ _ hsl]
  by_cases hks : cfg.enableKillSwitch = true
  · by_cases hok : (trigger_kill_switch (trailingState cfg s (pnlOf ps)) k).1.1 = true
    · rw [if_pos hks, if_pos hok]
      exact ⟨⟨_, Or.inl rfl⟩, fun d h => Outcome.noConfusion h⟩
    · rw [if_pos hks, if_neg hok]
      exact ⟨⟨_, Or.inr rfl⟩, fun d h => Outcome.noConfusion h⟩
  · rw [if_neg hks]
    exact ⟨⟨_, Or.inl rfl⟩, fun d h => Outcome.noConfusion h⟩

/-- C6 witness: stoploss 1000 ≥ target -500 and PNL 0 satisfies both
conditions; the outcome is the stoploss one. -/
theorem stoploss_precedence_witness :
    (∃ d, (check_and_manage_risk cfgAllOff ⟨1000, -500, false⟩ (some [])
             KSResponse.timeout).outcome = Outcome.STOPLOSS_BREACHED d ∨
          (check_and_manage_risk cfgAllOff ⟨1000, -500, false⟩ (some [])
             KSResponse.timeout).outcome = Outcome.KILL_SWITCH_FAILED d) ∧
    ∀ d, (check_and_manage_risk cfgAllOff ⟨1000, -500, false⟩ (some [])
            KSResponse.timeout).outcome ≠ Outcome.TARGET_ACHIEVED d :=
  stoploss_precedence cfgAllOff ⟨1000, -500, false⟩ [] KSResponse.timeout rfl
    (by decide) (by decide)

/-- C10: whenever the trailing ratchet raises `daily_stoploss` during a
call, the updated stoploss is strictly below the PNL of that same call,
so the stoploss branch cannot fire in that call: the outcome is never
`STOPLOSS_BREACHED`, and any `KILL_SWITCH_FAILED` outcome can only come
from the target branch. -/
theorem trailing_raise_no_same_call_breach (cfg : Config) (s : RiskState)
    (ps : List Position) (k : KSResponse)
    (hflag : s.kill_switch_triggered = false)
    (hraise : s.daily_stoploss < (trailingState cfg s (pnlOf ps)).daily_stoploss) :
    ¬ (pnlOf ps ≤ (trailingState cfg s (pnlOf ps)).daily_stoploss) ∧
    (∀ d, (check_and_manage_risk cfg s (some ps) k).outcome ≠
            Outcome.STOPLOSS_BREACHED d) ∧
    (∀ d, (check_and_manage_risk cfg s (some ps) k).outcome =
            Outcome.KILL_SWITCH_FAILED d →
          (trailingState cfg s (pnlOf ps)).daily_target ≤ pnlOf ps) := by
  have hlt := trailingState_raise_lt_pnl cfg s (pnlOf ps) hraise
  have hns : ¬ (pnlOf ps ≤ (trailingState cfg s (pnlOf ps)).daily_stoploss) :=
    not_le.mpr hlt
  refine ⟨hns, ?_, ?_⟩
  all_goals
    rw [check_body_eq cfg s ps k hflag]
    by_cases htg : (trailingState cfg s (pnlOf ps)).daily_target ≤ pnlOf ps
  · rw [accountCheck_target_branch _ _ _ _ _ _ _ hns htg]
    by_cases hks : cfg.enableKillSwitch = true
    · by_cases hok : (trigger_kill_switch (trailingState cfg s (pnlOf ps)) k).1.1 = true
      · rw [if_pos hks, if_pos hok]; exact fun d h => Outcome.noConfusion h
      · rw [if_pos hks, if_neg hok]; exact fun d h => Outcome.noConfusion h
    · rw [if_neg hks]; exact fun d h => Outcome.noConfusion h
  · rw [accountCheck_within_branch _ _ _ _ _ _ _ hns htg]
    exact fun d h => Outcome.noConfusion h
  · exact fun d _ => htg
  · rw [accountCheck_within_branch _ _ _ _ _ _ _ hns htg]
    exact fun d h => Outcome.noConfusion h

/-- C10 witness: trailing activation 1000 and trail 10% with PNL 2000
raise the stoploss from -1000 to 1800, which stays below the PNL, and
the call stays within limits. -/
theorem trailing_raise_no_same_call_breach_witness :
    ¬ (pnlOf [⟨"NIFTY", 75, some 100, 2000⟩] ≤
        (trailingState cfgTrailOn ⟨-1000, 1000000, false⟩
          (pnlOf [⟨"NIFTY", 75, some 100, 2000⟩])).daily_stoploss) ∧
    (∀ d, (check_and_manage_risk cfgTrailOn ⟨-1000, 1000000, false⟩
            (some [⟨"NIFTY", 75, some 100, 2000⟩]) KSResponse.timeout).outcome ≠
            Outcome.STOPLOSS_BREACHED d) ∧
    (∀ d, (check_and_manage_risk cfgTrailOn ⟨-1000, 1000000, false⟩
            (some [⟨"NIFTY", 75, some 100, 2000⟩]) KSResponse.timeout).outcome =
            Outcome.KILL_SWITCH_FAILED d →
          (trailingState cfgTrailOn ⟨-1000, 1000000, false⟩
            (pnlOf [⟨"NIFTY", 75, some 100, 2000⟩])).daily_target ≤
            pnlOf [⟨"NIFTY", 75, some 100, 2000⟩]) :=
  trailing_raise_no_same_call_breach cfgTrailOn ⟨-1000, 1000000, false⟩
    [⟨"NIFTY", 75, some 100, 2000⟩] KSResponse.timeout rfl (by decide)

end Dhan

namespace Dhan

/-- A single winning position with total day PNL 2500. -/
def snapWin : List Position := [⟨"T", 10, some 100, 2500⟩]

/-- C3 counterexample: on the target path (stoploss -1000, target 2000,
PNL 2500, kill switch disabled) the engine returns `TARGET_ACHIEVED`
but performs no Action Executor call at all — in particular it does not
cancel pending orders and does not flatten positions, contrary to the
claimed "same action sequence as the stoploss path". -/
theorem target_no_flatten_counterexample :
    (check_and_manage_risk cfgAllOff ⟨-1000, 2000, false⟩ (some snapWin)
        KSResponse.timeout).outcome = Outcome.TARGET_ACHIEVED "Kill switch not enabled" ∧
    (check_and_manage_risk cfgAllOff ⟨-1000, 2000, false⟩ (some snapWin)
        KSResponse.timeout).actions = [] := by
  constructor <;> decide

/-- C3 amended: on the target path the engine emits the TARGET breach
event and makes the kill-switch decision, but — unlike the stoploss
path — it cancels no pending orders and flattens no positions; it
returns `TARGET_ACHIEVED` when the kill switch is disabled or activates
successfully, and `KILL_SWITCH_FAILED` when activation fails. -/
theorem target_path_behavior (cfg : Config) (s : RiskState) (ps : List Position)
    (k : KSResponse)
    (hflag : s.kill_switch_triggered = false)
    (hns : ¬ (pnlOf ps ≤ (trailingState cfg s (pnlOf ps)).daily_stoploss))
    (htg : (trailingState cfg s (pnlOf ps)).daily_target ≤ pnlOf ps) :
    Event.breachAlert "TARGET" (pnlOf ps)
        (trailingState cfg s (pnlOf ps)).daily_target cfg.enableKillSwitch ∈
      (check_and_manage_risk cfg s (some ps) k).events ∧
    Action.cancelAllPendingOrders ∉ (check_and_manage_risk cfg s (some ps) k).actions ∧
    (∀ q, Action.squareOffAllPositions q ∉
      (check_and_manage_risk cfg s (some ps) k).actions) ∧
    (cfg.enableKillSwitch = false →
      (check_and_manage_risk cfg s (some ps) k).outcome =
        Outcome.TARGET_ACHIEVED "Kill switch not enabled") ∧
    (cfg.enableKillSwitch = true →
      (trigger_kill_switch (trailingState cfg s (pnlOf ps)) k).1.1 = true →
      (check_and_manage_risk cfg s (some ps) k).outcome =
        Outcome.TARGET_ACHIEVED
          (trigger_kill_switch (trailingState cfg s (pnlOf ps)) k).1.2) ∧
    (cfg.enableKillSwitch = true →
      (trigger_kill_switch (trailingState cfg s (pnlOf ps)) k).1.1 = false →
      (check_and_manage_risk cfg s (some ps) k).outcome =
        Outcome.KILL_SWITCH_FAILED
          (trigger_kill_switch (trailingState cfg s (pnlOf ps)) k).1.2) := by
  rw [check_body_eq cfg s ps k hflag, accountCheck_target_branch _ _ _ _ _ _ _ hns htg]
  have hpre : ∀ a, a ∈ (perPositionBlock cfg ps).1 → a ≠ Action.cancelAllPendingOrders ∧
      ∀ q, a ≠ Action.squareOffAllPositions q := by
    intro a ha
    obtain ⟨sym, rfl⟩ := perPositionBlock_shape cfg ps a ha
    exact ⟨fun h => Action.noConfusion h, fun q h => Action.noConfusion h⟩
  by_cases hks : cfg.enableKillSwitch = true
  · by_cases hok : (trigger_kill_switch (trailingState cfg s (pnlOf ps)) k).1.1 = true
    · rw [if_pos hks, if_pos hok]
      refine ⟨List.mem_append_right _ (List.mem_cons_self _ _), ?_, ?_, ?_, ?_, ?_⟩
      · intro hmem
        rcases List.mem_append.mp hmem with hmem | hmem
        · exact (hpre _ hmem).1 rfl
        · simp at hmem
      · intro q hmem
        rcases List.mem_append.mp hmem with hmem | hmem
        · exact (hpre _ hmem).2 q rfl
        · simp at hmem
      · intro h; rw [h] at hks; exact Bool.noConfusion hks
      · intro _ _; rfl
      · intro _ hfalse; rw [hok] at hfalse; exact Bool.noConfusion hfalse
    · rw [if_pos hks, if_neg hok]
      refine ⟨List.mem_append_right _ (List.mem_cons_self _ _), ?_, ?_, ?_, ?_, ?_⟩
      · intro hmem
        rcases List.mem_append.mp hmem with hmem | hmem
        · exact (hpre _ hmem).1 rfl
        · simp at hmem
      · intro q hmem
        rcases List.mem_append.mp hmem with hmem | hmem
        · exact (hpre _ hmem).2 q rfl
        · simp at hmem
      · intro h; rw [h] at hks; exact Bool.noConfusion hks
      · intro _ htrue; exact absurd htrue hok
      · intro _ _; rfl
  · rw [if_neg hks]
    refine ⟨List.mem_append_right _ (List.mem_cons_self _ _), ?_, ?_, ?_, ?_, ?_⟩
    · intro hmem
      exact (hpre _ hmem).1 rfl
    · intro q hmem
      exact (hpre _ hmem).2 q rfl
    · intro _; rfl
    · intro htrue; exact absurd htrue hks
    · intro htrue; exact absurd htrue hks

/-- C3 amended witness: the concrete target-path scenario. -/
theorem target_path_behavior_witness :
    Event.breachAlert "TARGET" (pnlOf snapWin)
        (trailingState cfgAllOff ⟨-1000, 2000, false⟩ (pnlOf snapWin)).daily_target
        cfgAllOff.enableKillSwitch ∈
      (check_and_manage_risk cfgAllOff ⟨-1000, 2000, false⟩ (some snapWin)
        KSResponse.timeout).events ∧
    Action.cancelAllPendingOrders ∉
      (check_and_manage_risk cfgAllOff ⟨-1000, 2000, false⟩ (some snapWin)
        KSResponse.timeout).actions ∧
    (∀ q, Action.squareOffAllPositions q ∉
      (check_and_manage_risk cfgAllOff ⟨-1000, 2000, false⟩ (some snapWin)
        KSResponse.timeout).actions) ∧
    (cfgAllOff.enableKillSwitch = false →
      (check_and_manage_risk cfgAllOff ⟨-1000, 2000, false⟩ (some snapWin)
        KSResponse.timeout).outcome =
        Outcome.TARGET_ACHIEVED "Kill switch not enabled") ∧
    (cfgAllOff.enableKillSwitch = true →
      (trigger_kill_switch (trailingState cfgAllOff ⟨-1000, 2000, false⟩ (pnlOf snapWin))
          KSResponse.timeout).1.1 = true →
      (check_and_manage_risk cfgAllOff ⟨-1000, 2000, false⟩ (some snapWin)
        KSResponse.timeout).outcome =
        Outcome.TARGET_ACHIEVED
          (trigger_kill_switch (trailingState cfgAllOff ⟨-1000, 2000, false⟩
            (pnlOf snapWin)) KSResponse.timeout).1.2) ∧
    (cfgAllOff.enableKillSwitch = true →
      (trigger_kill_switch (trailingState cfgAllOff ⟨-1000, 2000, false⟩ (pnlOf snapWin))
          KSResponse.timeout).1.1 = false →
      (check_and_manage_risk cfgAllOff ⟨-1000, 2000, false⟩ (some snapWin)
        KSResponse.timeout).outcome =
        Outcome.KILL_SWITCH_FAILED
          (trigger_kill_switch (trailingState cfgAllOff ⟨-1000, 2000, false⟩
            (pnlOf snapWin)) KSResponse.timeout).1.2) :=
  target_path_behavior cfgAllOff ⟨-1000, 2000, false⟩ snapWin KSResponse.timeout rfl
    (by decide) (by decide)

end Dhan

namespace Dhan

theorem marksFor_mem_markedExits (cfg : Config) (ps : List Position) (p : Position)
    (hp : p ∈ ps) (m : Position × ℚ × ExitReason) (hm : m ∈ marksFor cfg p) :
    m ∈ markedExits cfg ps := by
  induction ps with
  | nil => cases hp
  | cons q rest ih =>
      rcases List.mem_cons.mp hp with rfl | hp'
      · exact List.mem_append_left _ hm
      · exact List.mem_append_right _ (ih hp')

theorem marksFor_stoploss_mark (cfg : Config) (p : Position) (a : ℚ)
    (hsl : cfg.enablePosStoploss = true) (hslp : 0 < cfg.posStopPercent)
    (hq : p.netQty ≠ 0) (ha : p.avgPrice = some a) (ha0 : a ≠ 0)
    (hpct : p.total / ((p.netQty.natAbs : ℚ) * a) * 100 ≤ -cfg.posStopPercent) :
    (p, p.total / ((p.netQty.natAbs : ℚ) * a) * 100, ExitReason.POSITION_STOPLOSS) ∈
      marksFor cfg p := by
  have hinv : ((p.netQty.natAbs : ℚ) * a) ≠ 0 := by
    refine mul_ne_zero ?_ ha0
    exact_mod_cast Int.natAbs_ne_zero.mpr hq
  unfold marksFor
  rw [if_neg hq, ha]
  dsimp only
  rw [if_neg ha0, if_neg hinv]
  refine List.mem_append_right _ ?_
  have hcond : cfg.enablePosStoploss = true ∧ 0 < cfg.posStopPercent ∧
      p.total / ((p.netQty.natAbs : ℚ) * a) * 100 ≤ -|cfg.posStopPercent| := by
    refine ⟨hsl, hslp, ?_⟩
    rwa [abs_of_pos hslp]
  rw [if_pos hcond]
  exact List.mem_singleton.mpr rfl

/-- A losing position: -20% against invested value. -/
def posLoser : Position := ⟨"L", 10, some 100, -200⟩

/-- C4 counterexample: with the per-position stoploss feature enabled
(threshold 2%) but the per-position take-profit feature disabled, a
position at -20% (well past the stoploss threshold) is not squared
off — the whole per-position block is skipped, so the stoploss exit is
not independent of the take-profit enable flag. -/
theorem per_position_stoploss_counterexample :
    (posLoser.total / ((posLoser.netQty.natAbs : ℚ) * 100) * 100 ≤
      -cfgPosSLOnly.posStopPercent) ∧
    cfgPosSLOnly.enablePosStoploss = true ∧
    0 < cfgPosSLOnly.posStopPercent ∧
    Action.squareOffPosition "L" ∉
      (check_and_manage_risk cfgPosSLOnly ⟨-1000000, 1000000, false⟩ (some [posLoser])
        KSResponse.timeout).actions ∧
    (check_and_manage_risk cfgPosSLOnly ⟨-1000000, 1000000, false⟩ (some [posLoser])
        KSResponse.timeout).actions = [] := by
  refine ⟨by decide, rfl, by decide, ?_, by decide⟩
  decide

/-- C4 amended: when the per-position take-profit feature is enabled
with a positive threshold (which is what lets the per-position block
run at all) and the per-position stoploss feature is enabled with a
positive threshold, every position with nonzero net quantity, a
resolvable nonzero average price and percent ≤ -threshold is marked for
a stoploss exit and a single-position flatten is executed for it,
independently of the account-level checks. -/
theorem per_position_stoploss_exit (cfg : Config) (s : RiskState) (ps : List Position)
    (k : KSResponse) (p : Position) (a : ℚ)
    (hflag : s.kill_switch_triggered = false)
    (htake : cfg.enablePosTake = true) (htakep : 0 < cfg.posTakePercent)
    (hsl : cfg.enablePosStoploss = true) (hslp : 0 < cfg.posStopPercent)
    (hmem : p ∈ ps) (hq : p.netQty ≠ 0) (ha : p.avgPrice = some a) (ha0 : a ≠ 0)
    (hpct : p.total / ((p.netQty.natAbs : ℚ) * a) * 100 ≤ -cfg.posStopPercent) :
    (p, p.total / ((p.netQty.natAbs : ℚ) * a) * 100, ExitReason.POSITION_STOPLOSS) ∈
      markedExits cfg ps ∧
    Action.squareOffPosition p.symbol ∈
      (check_and_manage_risk cfg s (some ps) k).actions := by
  have hmark := marksFor_mem_markedExits cfg ps p hmem _
    (marksFor_stoploss_mark cfg p a hsl hslp hq ha ha0 hpct)
  refine ⟨hmark, ?_⟩
  have hact : Action.squareOffPosition p.symbol ∈ (perPositionBlock cfg ps).1 := by
    unfold perPositionBlock
    rw [if_pos ⟨htake, htakep⟩]
    exact List.mem_map.mpr ⟨_, hmark, rfl⟩
  rw [check_body_eq cfg s ps k hflag]
  obtain ⟨rest, hrest⟩ := accountCheck_actions_eq cfg
    (trailingState cfg s (pnlOf ps)) ps (pnlOf ps) k (perPositionBlock cfg ps).1
    (trailingEvents cfg s (pnlOf ps) ++ pnlUpdateEvents cfg ++ (perPositionBlock cfg ps).2)
  rw [hrest]
  exact List.mem_append_left _ hact

/-- C4 amended witness: with both per-position features on, the -20%
position is marked and squared off. -/
theorem per_position_stoploss_exit_witness :
    (posLoser, posLoser.total / ((posLoser.netQty.natAbs : ℚ) * 100) * 100,
        ExitReason.POSITION_STOPLOSS) ∈ markedExits cfgPosBoth [posLoser] ∧
    Action.squareOffPosition posLoser.symbol ∈
      (check_and_manage_risk cfgPosBoth ⟨-1000000, 1000000, false⟩ (some [posLoser])
        KSResponse.timeout).actions :=
  per_position_stoploss_exit cfgPosBoth ⟨-1000000, 1000000, false⟩ [posLoser]
    KSResponse.timeout posLoser 100 rfl rfl (by decide) rfl (by decide)
    (List.mem_singleton.mpr rfl) (by decide) rfl (by decide) (by decide)

end Dhan

namespace Dhan

theorem squareOffLoop_placed_mem (env : Position → OrderResult) (ps : List Position)
    (p : Position) (hp : p ∈ ps) (hq : p.netQty ≠ 0) (oid : String)
    (he : env p = OrderResult.placed oid) :
    p.symbol ∈ (squareOffLoop env ps).placedSymbols := by
  induction ps with
  | nil => cases hp
  | cons a rest ih =>
      rcases List.mem_cons.mp hp with rfl | hp'
      · show p.symbol ∈ (squareOffLoop env (p :: rest)).placedSymbols
        unfold squareOffLoop
        rw [if_neg hq, he]
        exact List.mem_cons_self _ _
      · show p.symbol ∈ (squareOffLoop env (a :: rest)).placedSymbols
        unfold squareOffLoop
        by_cases h0 : a.netQty = 0
        · rw [if_pos h0]
          exact ih hp'
        · rw [if_neg h0]
          cases hea : env a
          · exact List.mem_cons_of_mem _ (ih hp')
          · exact ih hp'
          · exact ih hp'

theorem squareOffLoop_counts (env : Position → OrderResult) (ps : List Position) :
    (squareOffLoop env ps).squared_off_count + (squareOffLoop env ps).failed_count =
      (ps.filter (fun q => decide (q.netQty ≠ 0))).length := by
  induction ps with
  | nil => rfl
  | cons a rest ih =>
      unfold squareOffLoop
      by_cases h0 : a.netQty = 0
      · rw [if_pos h0]
        have : (fun q => decide (q.netQty ≠ 0)) a = false := by simp [h0]
        rw [List.filter_cons_of_neg (by simpa using this)]
        exact ih
      · rw [if_neg h0]
        have hfa : (fun q => decide (q.netQty ≠ 0)) a = true := by simp [h0]
        rw [List.filter_cons_of_pos (by simpa using hfa)]
        cases hea : env a <;> simp only [List.length_cons] <;> omega

/-- C8: in `square_off_all_positions`, a failure on one position never
prevents any other position from being flattened — every position with
nonzero net quantity whose closing order is accepted ends up with its
order placed, regardless of the other positions' results; each failure
is counted, zero-quantity positions are skipped without counting as
failures, and the overall result is success exactly when no failure was
counted. -/
theorem square_off_partial_failure_isolated (env : Position → OrderResult)
    (ps : List Position) :
    (∀ p, p ∈ ps → p.netQty ≠ 0 → ∀ oid, env p = OrderResult.placed oid →
        p.symbol ∈ (square_off_all_positions env ps).1.placedSymbols) ∧
    (square_off_all_positions env ps).1.squared_off_count +
        (square_off_all_positions env ps).1.failed_count =
      (ps.filter (fun q => decide (q.netQty ≠ 0))).length ∧
    (square_off_all_positions env ps).2 =
      decide ((square_off_all_positions env ps).1.failed_count = 0) :=
  ⟨fun p hp hq oid he => squareOffLoop_placed_mem env ps p hp hq oid he,
   squareOffLoop_counts env ps, rfl⟩

/-- Order-placement environment in which position "A" fails with an
HTTP error and every other position's closing order is accepted. -/
def envFailA : Position → OrderResult := fun p =>
  if p.symbol = "A" then OrderResult.httpFailure "DH-906: order rejected"
  else OrderResult.placed "OID42"

/-- The failing position A (10 long). -/
def posA : Position := ⟨"A", 10, some 50, -30⟩

/-- The succeeding position B (5 short). -/
def posB : Position := ⟨"B", -5, some 80, 12⟩

/-- C8 witness: flattening A fails, yet B's closing order is still
placed; the failure is counted and the call reports overall failure. -/
theorem square_off_partial_failure_isolated_witness :
    posB.symbol ∈ (square_off_all_positions envFailA [posA, posB]).1.placedSymbols ∧
    (square_off_all_positions envFailA [posA, posB]).1.failed_count = 1 ∧
    (square_off_all_positions envFailA [posA, posB]).2 = false :=
  ⟨(square_off_partial_failure_isolated envFailA [posA, posB]).1 posB (by decide)
      (by decide) "OID42" (by decide),
   by decide, by decide⟩

end Dhan
